import Mathlib

set_option linter.unusedVariables false

/-!
Shallow embedding of the thread-state transition protocol of
`src/hotspot/share/runtime/interfaceSupport.inline.hpp`.

States Managed / Runtime / NativeCode / Blocked of the specification are the
code's `_thread_in_Java` / `_thread_in_vm` / `_thread_in_native` /
`_thread_blocked`.  Each transition primitive is embedded as a function from
the acting thread's control block to `Except Fault (JavaThread × List Event)`:
a `.error` result models a fatal assertion or `fatal("Illegal state change")`
(process termination, so no successor state exists), and the event list records
the externally visible actions of the transition in program order, which lets
ordering claims (store before poll, walkable before store, release before
wait) be stated about traces.
-/

namespace InterfaceSupport

/-- JavaThreadState: the four settled states the transition code in this file
uses (this revision of the code has dropped the transitional shadow states). -/
inductive JavaThreadState where
  | thread_in_Java
  | thread_in_vm
  | thread_in_native
  | thread_blocked
deriving DecidableEq, Repr, Fintype

open JavaThreadState

/-- Events are the externally visible actions a transition performs, recorded
in program order.  `setThreadStateFence` is `set_thread_state_fence` (a store
acting as a full fence), `setThreadState` the plain `set_thread_state` store;
`processIfRequested` and `processIfRequestedExitCheck` are the two
`SafepointMechanism` poll entry points; `readThreadState` records a read of the
per-thread state field. -/
inductive Event where
  | checkPossibleSafepoint
  | makeWalkable
  | enableYellowZone
  | setThreadState (s : JavaThreadState)
  | setThreadStateFence (s : JavaThreadState)
  | processIfRequested
  | processIfRequestedExitCheck (allowAsync : Bool)
  | storestoreFence
  | releaseForSafepoint
  | readThreadState
deriving DecidableEq, Repr, Fintype

/-- JavaThread: the slice of the per-thread control block the transition code
reads or writes.  `anchor_walkable` is `frame_anchor()->walkable()`,
`yellow_zone_disabled` is
`stack_overflow_state()->stack_yellow_reserved_zone_disabled()`,
`at_poll_safepoint` is `safepoint_state()->is_at_poll_safepoint()`, and
`pending_safepoint` is the oracle for `SafepointMechanism::should_process`
(an external collaborator: a nonblocking poll of the pending-request flag). -/
structure JavaThread where
  thread_state : JavaThreadState
  is_Compiler_thread : Bool
  owns_locks : Bool
  has_last_Java_frame : Bool
  anchor_walkable : Bool
  yellow_zone_disabled : Bool
  at_poll_safepoint : Bool
  pending_safepoint : Bool
deriving DecidableEq, Repr

instance : Fintype JavaThread :=
  Fintype.ofSurjective
    (fun x : JavaThreadState × Bool × Bool × Bool × Bool × Bool × Bool × Bool =>
      JavaThread.mk x.1 x.2.1 x.2.2.1 x.2.2.2.1 x.2.2.2.2.1 x.2.2.2.2.2.1
        x.2.2.2.2.2.2.1 x.2.2.2.2.2.2.2)
    (fun t => ⟨⟨t.thread_state, t.is_Compiler_thread, t.owns_locks,
      t.has_last_Java_frame, t.anchor_walkable, t.yellow_zone_disabled,
      t.at_poll_safepoint, t.pending_safepoint⟩, rfl⟩)

/-- Fault: an `assert` firing or `fatal("Illegal state change")`.  Both
terminate the process in the code, so a faulting transition yields no
successor thread state. -/
inductive Fault where
  | assertFailed
  | fatalIllegalStateChange
deriving DecidableEq, Repr, Fintype

/-- TransResult: the outcome of one transition primitive — a fault, or the
updated thread together with the trace of its visible actions. -/
abbrev TransResult := Except Fault (JavaThread × List Event)

/-- tsAssert models the `assert(cond, msg)` checks of the transition code: a
failed check is a fatal process abort, embedded as `.error .assertFailed`. -/
def tsAssert (b : Bool) : Except Fault Unit :=
  if b then .ok () else .error .assertFailed

/-- trans of class TransitionFromSafeToVM (interfaceSupport.inline.hpp lines
90-103): assert the arguments, run `check_possible_safepoint`, publish the new
state with `set_thread_state_fence`, then `process_if_requested`. -/
def TransitionFromSafeToVM.trans (thread : JavaThread)
    (jfrom jto : JavaThreadState) : TransResult := do
  tsAssert (jfrom == thread_in_native || jfrom == thread_blocked)
  tsAssert (jto == thread_in_vm)
  let thread := { thread with thread_state := jto }
  return (thread,
    [Event.checkPossibleSafepoint, Event.setThreadStateFence jto,
     Event.processIfRequested])

/-- Modelled from the spec: the body of
`thread->frame_anchor()->make_walkable(thread)` (class JavaFrameAnchor) is
platform code not part of this excerpt; per the spec, `StackState.make_walkable`
publishes the frame metadata, after which `StackState.is_walkable()` is true. -/
def makeWalkable (thread : JavaThread) : JavaThread × List Event :=
  ({ thread with anchor_walkable := true }, [Event.makeWalkable])

/-- trans of class TransitionFromUnsafe (interfaceSupport.inline.hpp lines
105-119): assert the from state is not safe, that a to-Java use is at a poll
safepoint, and the lock-release obligation on entering native; when leaving
`_thread_in_Java` make the stack walkable first, otherwise assert it already
is (when there is a last Java frame); then a plain `set_thread_state`. -/
def TransitionFromUnsafe.trans (thread : JavaThread)
    (jfrom jto : JavaThreadState) : TransResult := do
  tsAssert (jfrom != thread_in_native && jfrom != thread_blocked)
  tsAssert (jto != thread_in_Java || thread.at_poll_safepoint)
  tsAssert (thread.is_Compiler_thread || !thread.owns_locks ||
    jto != thread_in_native)
  let (thread, ev1) ←
    if jfrom == thread_in_Java then do
      tsAssert (jto == thread_in_native || jto == thread_in_vm)
      pure (makeWalkable thread)
    else do
      tsAssert (!thread.has_last_Java_frame || thread.anchor_walkable)
      pure (thread, ([] : List Event))
  let thread := { thread with thread_state := jto }
  return (thread, ev1 ++ [Event.setThreadState jto])

/-- trans of class template TransitionFromVMToJava (interfaceSupport.inline.hpp
lines 121-136): assert the thread's state field is `_thread_in_vm`, re-enable
the yellow/reserved stack guard zone if it is disabled, run
`check_possible_safepoint`, then `process_if_requested_with_exit_check` with
the ASYNC template argument, and only then store the new state with a plain
`set_thread_state`.  The `jfrom` argument is unused by the code. -/
def TransitionFromVMToJava.trans (ASYNC : Bool) (thread : JavaThread)
    (jfrom jto : JavaThreadState) : TransResult := do
  tsAssert (thread.thread_state == thread_in_vm)
  let (thread, ev1) :=
    if thread.yellow_zone_disabled then
      ({ thread with yellow_zone_disabled := false }, [Event.enableYellowZone])
    else (thread, ([] : List Event))
  let ev2 := ev1 ++ [Event.checkPossibleSafepoint,
    Event.processIfRequestedExitCheck ASYNC]
  let thread := { thread with thread_state := jto }
  return (thread, ev2 ++ [Event.setThreadState jto])

/-- is_safe of ThreadStateTransitionBase: `_thread_in_native` or
`_thread_blocked`. -/
def ThreadStateTransitionBase.is_safe (state : JavaThreadState) : Bool :=
  state == thread_in_native || state == thread_blocked

/-- is_unsafe of ThreadStateTransitionBase (renamed with a `_state` suffix):
the negation of `is_safe`. -/
def ThreadStateTransitionBase.is_unsafe_state (state : JavaThreadState) : Bool :=
  !ThreadStateTransitionBase.is_safe state

/-- transition of class template ThreadStateTransitionBase
(interfaceSupport.inline.hpp lines 138-163): dispatch to
TransitionFromVMToJava when the destination is `_thread_in_Java`, to
TransitionFromUnsafe when the source is unsafe, to TransitionFromSafeToVM when
the source is safe and the destination `_thread_in_vm`; anything else is
`fatal("Illegal state change")`. -/
def ThreadStateTransitionBase.transition (ASYNC : Bool) (thread : JavaThread)
    (jfrom jto : JavaThreadState) : TransResult :=
  if jto == thread_in_Java then
    TransitionFromVMToJava.trans ASYNC thread jfrom jto
  else if ThreadStateTransitionBase.is_unsafe_state jfrom then
    TransitionFromUnsafe.trans thread jfrom jto
  else if ThreadStateTransitionBase.is_safe jfrom && jto == thread_in_vm then
    TransitionFromSafeToVM.trans thread jfrom jto
  else
    .error .fatalIllegalStateChange

/-- transOk: the transition completed normally (no fatal fault). -/
def transOk : TransResult → Bool
  | .ok _ => true
  | .error _ => false

/-- traceOf: the event trace of a completed transition (empty on a fault). -/
def traceOf : TransResult → List Event
  | .ok (_, evs) => evs
  | .error _ => []

/-- resultThread: the successor thread of a completed transition. -/
def resultThread : TransResult → Option JavaThread
  | .ok (t, _) => some t
  | .error _ => none

/-- finalStateOf: the successor thread's state field, when the transition
completed. -/
def finalStateOf (r : TransResult) : Option JavaThreadState :=
  (resultThread r).map JavaThread.thread_state

/-- legalPairs: the (from, to) pairs the specification's section 4.1 matrix
marks legal — Managed→Runtime, Managed→NativeCode, Runtime→Managed,
Runtime→NativeCode, Runtime→Blocked, NativeCode→Runtime, Blocked→Runtime. -/
def legalPairs : List (JavaThreadState × JavaThreadState) :=
  [(thread_in_Java, thread_in_vm), (thread_in_Java, thread_in_native),
   (thread_in_vm, thread_in_Java), (thread_in_vm, thread_in_native),
   (thread_in_vm, thread_blocked),
   (thread_in_native, thread_in_vm), (thread_blocked, thread_in_vm)]

/-- construct of class template ThreadStateTransition (interfaceSupport
lines 165-176): the constructor runs transition(thread, JTS_FROM, JTS_TO). -/
def ThreadStateTransition.construct (JTS_FROM JTS_TO : JavaThreadState)
    (ASYNC : Bool) (thread : JavaThread) : TransResult :=
  ThreadStateTransitionBase.transition ASYNC thread JTS_FROM JTS_TO

/-- destruct of class template ThreadStateTransition: the destructor runs
transition(thread, JTS_TO, JTS_FROM), the reverse transition, and C++ runs it
on every exit path from the guarded scope. -/
def ThreadStateTransition.destruct (JTS_FROM JTS_TO : JavaThreadState)
    (ASYNC : Bool) (thread : JavaThread) : TransResult :=
  ThreadStateTransitionBase.transition ASYNC thread JTS_TO JTS_FROM

/-- scopedRun: one guarded region — the constructor's transition followed by
the destructor's reverse transition, with the traces concatenated. -/
def ThreadStateTransition.scopedRun (JTS_FROM JTS_TO : JavaThreadState)
    (ASYNC : Bool) (thread : JavaThread) : TransResult := do
  let (t1, e1) ← ThreadStateTransition.construct JTS_FROM JTS_TO ASYNC thread
  let (t2, e2) ← ThreadStateTransition.destruct JTS_FROM JTS_TO ASYNC t1
  return (t2, e1 ++ e2)

/-- ScopedVariant: a template instantiation of ThreadStateTransition —
its JTS_FROM, JTS_TO and ASYNC template arguments. -/
structure ScopedVariant where
  jfrom : JavaThreadState
  jto : JavaThreadState
  ASYNC : Bool
deriving DecidableEq, Repr

/-- ThreadInVMfromJava = ThreadStateTransition<_thread_in_Java, _thread_in_vm>
(ASYNC defaulted to true). -/
def ThreadInVMfromJava : ScopedVariant :=
  ⟨thread_in_Java, thread_in_vm, true⟩

/-- ThreadInVMfromJavaNoAsyncException =
ThreadStateTransition<_thread_in_Java, _thread_in_vm, false>. -/
def ThreadInVMfromJavaNoAsyncException : ScopedVariant :=
  ⟨thread_in_Java, thread_in_vm, false⟩

/-- ThreadInVMfromNative = ThreadStateTransition<_thread_in_native,
_thread_in_vm>. -/
def ThreadInVMfromNative : ScopedVariant :=
  ⟨thread_in_native, thread_in_vm, true⟩

/-- ThreadBlockInVM = ThreadStateTransition<_thread_in_vm, _thread_blocked>. -/
def ThreadBlockInVM : ScopedVariant :=
  ⟨thread_in_vm, thread_blocked, true⟩

/-- ThreadToNativeFromVM = ThreadStateTransitionHandleMark<_thread_in_vm,
_thread_in_native>, which derives from ThreadStateTransition with ASYNC =
false; the HandleMark member adds no transition. -/
def ThreadToNativeFromVM : ScopedVariant :=
  ⟨thread_in_vm, thread_in_native, false⟩

/-- scopedVariants: the five ScopedTransition typedefs of the file. -/
def scopedVariants : List ScopedVariant :=
  [ThreadInVMfromJava, ThreadInVMfromJavaNoAsyncException, ThreadInVMfromNative,
   ThreadBlockInVM, ThreadToNativeFromVM]

/-- CurrentThread: what `Thread::current()` yields at the construction of a
ThreadInStatefromUnknown guard — no attached thread, a non-Java thread, or a
JavaThread. -/
inductive CurrentThread where
  | noThread
  | nonJavaThread
  | javaThread (jt : JavaThread)
deriving DecidableEq, Repr

/-- stateOf: the state field of the current thread, when it is a JavaThread. -/
def CurrentThread.stateOf : CurrentThread → Option JavaThreadState
  | .javaThread jt => some jt.thread_state
  | _ => none

/-- invariantOK: the caller invariants of the transition primitives for the
embedded JavaThread — the lock-release obligation (a compiler thread or no
locks owned) and the walkable invariant (no last Java frame or a walkable
anchor); trivially true when no JavaThread is attached. -/
def CurrentThread.invariantOK : CurrentThread → Bool
  | .javaThread jt =>
      (jt.is_Compiler_thread || !jt.owns_locks) &&
      (!jt.has_last_Java_frame || jt.anchor_walkable)
  | _ => true

/-- construct of class template ThreadInStatefromUnknown (interfaceSupport
lines 194-217): `_thread` starts NULL; when there is no current thread or it
is not a Java thread, return at once; otherwise read the thread's state into
`_state`, return if it already equals JTS_TO, and else set `_thread` and run
transition(_thread, _state, JTS_TO).  The `Option JavaThreadState` component
is the remembered `_state` when `_thread` was set. -/
def ThreadInStatefromUnknown.construct (JTS_TO : JavaThreadState)
    (ASYNC : Bool) (cur : CurrentThread) :
    Except Fault (CurrentThread × Option JavaThreadState × List Event) :=
  match cur with
  | .noThread => .ok (cur, none, [])
  | .nonJavaThread => .ok (cur, none, [])
  | .javaThread jt =>
    if jt.thread_state == JTS_TO then
      .ok (cur, none, [Event.readThreadState])
    else
      match ThreadStateTransitionBase.transition ASYNC jt jt.thread_state JTS_TO with
      | .error e => .error e
      | .ok (jt2, evs) =>
        .ok (.javaThread jt2, some jt.thread_state,
          Event.readThreadState :: evs)

/-- destruct of ThreadInStatefromUnknown: when `_thread` was set (a remembered
state exists) run transition(_thread, JTS_TO, _state); otherwise nothing.  A
remembered state with no attached JavaThread cannot arise from construct. -/
def ThreadInStatefromUnknown.destruct (JTS_TO : JavaThreadState)
    (ASYNC : Bool) (cur : CurrentThread) (saved : Option JavaThreadState) :
    Except Fault (CurrentThread × List Event) :=
  match saved, cur with
  | none, _ => .ok (cur, [])
  | some st, .javaThread jt =>
    match ThreadStateTransitionBase.transition ASYNC jt JTS_TO st with
    | .error e => .error e
    | .ok (jt2, evs) => .ok (.javaThread jt2, evs)
  | some _, _ => .ok (cur, [])

/-- runGuard: a full ThreadInStatefromUnknown scope — construct, then
destruct, traces concatenated.  ThreadInVMfromUnknown is JTS_TO =
`_thread_in_vm`, ASYNC = false. -/
def ThreadInStatefromUnknown.runGuard (JTS_TO : JavaThreadState)
    (ASYNC : Bool) (cur : CurrentThread) :
    Except Fault (CurrentThread × List Event) := do
  let (cur1, saved, e1) ← ThreadInStatefromUnknown.construct JTS_TO ASYNC cur
  let (cur2, e2) ← ThreadInStatefromUnknown.destruct JTS_TO ASYNC cur1 saved
  return (cur2, e1 ++ e2)

/-- guardOk: the guard scope completed without a fatal fault. -/
def guardOk : Except Fault (CurrentThread × List Event) → Bool
  | .ok _ => true
  | .error _ => false

/-- guardResultState: the current thread's state after the guard scope. -/
def guardResultState : Except Fault (CurrentThread × List Event) →
    Option JavaThreadState
  | .ok (cur, _) => cur.stateOf
  | .error _ => none

/-- guardTrace: the event trace of a completed guard scope. -/
def guardTrace : Except Fault (CurrentThread × List Event) → List Event
  | .ok (_, evs) => evs
  | .error _ => []

/-- release_mutex of class ThreadBlockInVMWithDeadlockCheck (interfaceSupport
lines 247-254): read the caller-supplied in-flight mutex slot; when the mutex
pointer is non-NULL, call `release_for_safepoint()` on it and store NULL into
the slot.  The slot is modelled as an `Option Unit` passed and returned by
value; the `assert(_in_flight_mutex_addr != NULL)` is the assumption that a
slot exists at all. -/
def ThreadBlockInVMWithDeadlockCheck.release_mutex (slot : Option Unit) :
    Option Unit × List Event :=
  match slot with
  | some _ => (none, [Event.releaseForSafepoint])
  | none => (none, [])

/-- construct of ThreadBlockInVMWithDeadlockCheck (interfaceSupport lines
256-264): a storestore barrier, then a plain store of `_thread_blocked`.  The
mutex slot is not touched and no safepoint check runs here. -/
def ThreadBlockInVMWithDeadlockCheck.construct (thread : JavaThread)
    (slot : Option Unit) : JavaThread × Option Unit × List Event :=
  ({ thread with thread_state := thread_blocked }, slot,
   [Event.storestoreFence, Event.setThreadState thread_blocked])

/-- destruct of ThreadBlockInVMWithDeadlockCheck (interfaceSupport lines
265-273): publish `_thread_in_vm` with `set_thread_state_fence`; then, when
`SafepointMechanism::should_process(_thread)` reports a pending request
(modelled by the `pending_safepoint` oracle field), release the in-flight
mutex and only then run `process_if_requested` (the blocking wait). -/
def ThreadBlockInVMWithDeadlockCheck.destruct (thread : JavaThread)
    (slot : Option Unit) : JavaThread × Option Unit × List Event :=
  let thread := { thread with thread_state := thread_in_vm }
  if thread.pending_safepoint then
    let (slot2, evR) := ThreadBlockInVMWithDeadlockCheck.release_mutex slot
    (thread, slot2,
     [Event.setThreadStateFence thread_in_vm] ++ evR ++
       [Event.processIfRequested])
  else
    (thread, slot, [Event.setThreadStateFence thread_in_vm])

/-- isStateStore: the event is a store of the thread-state field (plain or
fence variant). -/
def Event.isStateStore : Event → Bool
  | .setThreadState _ => true
  | .setThreadStateFence _ => true
  | _ => false

/-- isFenceStore: the event is `set_thread_state_fence` — the state store
that acts as a full fence. -/
def Event.isFenceStore : Event → Bool
  | .setThreadStateFence _ => true
  | _ => false

/-- isProcessCheck: the event is one of the two SafepointMechanism poll calls
(the check for a pending synchronization request). -/
def Event.isProcessCheck : Event → Bool
  | .processIfRequested => true
  | .processIfRequestedExitCheck _ => true
  | _ => false

/-- occursBefore p q tr: some p-event occurs strictly before the first
q-event of the trace, and a q-event does occur after it; false when a q-event
comes first or either event is missing. -/
def occursBefore (p q : Event → Bool) : List Event → Bool
  | [] => false
  | e :: rest =>
    if q e then false
    else if p e then rest.any q
    else occursBefore p q rest

/-- countReleases: how many times `release_for_safepoint` was invoked in a
trace. -/
def countReleases (evs : List Event) : Nat :=
  (evs.filter (fun e => e == Event.releaseForSafepoint)).length

/-- sampleVMThread: a thread in `_thread_in_vm` holding no locks, with no
last Java frame, guard pages enabled, nothing pending. -/
def sampleVMThread : JavaThread :=
  { thread_state := thread_in_vm, is_Compiler_thread := false,
    owns_locks := false, has_last_Java_frame := false, anchor_walkable := true,
    yellow_zone_disabled := false, at_poll_safepoint := false,
    pending_safepoint := false }

/-- sampleJavaThread: like sampleVMThread but in `_thread_in_Java`. -/
def sampleJavaThread : JavaThread :=
  { sampleVMThread with thread_state := thread_in_Java }

/-- sampleNativeThread: like sampleVMThread but in `_thread_in_native`. -/
def sampleNativeThread : JavaThread :=
  { sampleVMThread with thread_state := thread_in_native }

/-- pendingVMThread: a thread in `_thread_in_vm` with a pending
synchronization request. -/
def pendingVMThread : JavaThread :=
  { sampleVMThread with pending_safepoint := true }

/-- yellowJavaThread: a thread in `_thread_in_Java` whose yellow/reserved
guard zone is disabled. -/
def yellowJavaThread : JavaThread :=
  { sampleVMThread with
    thread_state := thread_in_Java,
    yellow_zone_disabled := true }

/-- yellowVMThread: a thread in `_thread_in_vm` whose yellow/reserved guard
zone is disabled. -/
def yellowVMThread : JavaThread :=
  { sampleVMThread with yellow_zone_disabled := true }

/-- compilerVMThread: a compiler thread in `_thread_in_vm` that owns locks. -/
def compilerVMThread : JavaThread :=
  { sampleVMThread with is_Compiler_thread := true, owns_locks := true }

instance (priority := 2000) decEqExcept {e b : Type} [DecidableEq e]
    [DecidableEq b] : DecidableEq (Except e b) := fun x y =>
  match x, y with
  | .ok u, .ok v =>
    if h : u = v then isTrue (congrArg Except.ok h)
    else isFalse (fun hh => h (Except.ok.inj hh))
  | .error u, .error v =>
    if h : u = v then isTrue (congrArg Except.error h)
    else isFalse (fun hh => h (Except.error.inj hh))
  | .ok _, .error _ => isFalse (fun hh => Except.noConfusion hh)
  | .error _, .ok _ => isFalse (fun hh => Except.noConfusion hh)

instance (priority := 2000) decForallJTS (p : JavaThreadState → Prop)
    [DecidablePred p] : Decidable (∀ s, p s) :=
  decidable_of_iff
    (p thread_in_Java ∧ p thread_in_vm ∧ p thread_in_native ∧ p thread_blocked)
    (by
      constructor
      · rintro ⟨h1, h2, h3, h4⟩ s
        cases s
        exact h1
        exact h2
        exact h3
        exact h4
      · intro h
        exact ⟨h _, h _, h _, h _⟩)

instance (priority := 2000) decForallBool (p : Bool → Prop)
    [DecidablePred p] : Decidable (∀ b, p b) :=
  decidable_of_iff (p false ∧ p true)
    (by
      constructor
      · rintro ⟨h1, h2⟩ b
        cases b
        exact h1
        exact h2
      · intro h
        exact ⟨h _, h _⟩)

instance (priority := 2000) decForallOptUnit (p : Option Unit → Prop)
    [DecidablePred p] : Decidable (∀ o, p o) :=
  decidable_of_iff (p none ∧ p (some ()))
    (by
      constructor
      · rintro ⟨h1, h2⟩ o
        rcases o with _ | ⟨⟩
        exact h1
        exact h2
      · intro h
        exact ⟨h _, h _⟩)

/-- C1 counterexample: the degenerate pair (Runtime, Runtime) is not in the
section 4.1 legality matrix, yet `ThreadStateTransitionBase::transition` on a
thread in `_thread_in_vm` completes normally for it (the dispatch sends it to
TransitionFromUnsafe, whose asserts all pass), refuting "for every other pair
the operation raises the fatal protocol-violation fault and never completes
normally". -/
theorem c1_counterexample :
    (thread_in_vm, thread_in_vm) ∉ legalPairs ∧
    transOk (ThreadStateTransitionBase.transition true sampleVMThread
      thread_in_vm thread_in_vm) = true := by
  decide

/-- C1 (amended): for a thread whose state field equals the from argument and
which satisfies the caller invariants the transition code itself asserts (a
compiler thread or no locks owned; no last Java frame or a walkable anchor),
`ThreadStateTransitionBase::transition` completes normally exactly when the
(from, to) pair is legal per the section 4.1 matrix OR is the degenerate
self-transition Runtime→Runtime; every other pair faults fatally (an
`Except.error`, modelling process termination, so no successor state is ever
produced). -/
theorem c1_transition_legality :
    ∀ (a : Bool) (t : JavaThread) (jf jto : JavaThreadState),
      t.thread_state = jf →
      (t.is_Compiler_thread = true ∨ t.owns_locks = false) →
      (t.has_last_Java_frame = false ∨ t.anchor_walkable = true) →
      (transOk (ThreadStateTransitionBase.transition a t jf jto) = true ↔
        ((jf, jto) ∈ legalPairs ∨
          (jf = thread_in_vm ∧ jto = thread_in_vm))) := by
  intro a t jf jto
  obtain ⟨st, c, l, f, w, y, p, q⟩ := t
  revert a jf jto st c l f w y p q
  decide

/-- C1 witness: the legal pair Runtime→Managed on a concrete thread. -/
theorem c1_transition_legality_witness :
    transOk (ThreadStateTransitionBase.transition true sampleVMThread
      thread_in_vm thread_in_Java) = true :=
  (c1_transition_legality true sampleVMThread thread_in_vm thread_in_Java
    rfl (Or.inr rfl) (Or.inl rfl)).mpr (by decide)

/-- C2 counterexample: a transition into Managed (`_thread_in_vm` →
`_thread_in_Java` on a concrete thread) completes normally, but its trace runs
`process_if_requested_with_exit_check` BEFORE the store of the new state and
performs no pending-request check after that store, refuting "the check runs
after the new state has been stored". -/
theorem c2_counterexample :
    transOk (ThreadStateTransitionBase.transition true sampleVMThread
      thread_in_vm thread_in_Java) = true ∧
    traceOf (ThreadStateTransitionBase.transition true sampleVMThread
      thread_in_vm thread_in_Java) =
      [Event.checkPossibleSafepoint, Event.processIfRequestedExitCheck true,
       Event.setThreadState thread_in_Java] ∧
    occursBefore Event.isStateStore Event.isProcessCheck
      (traceOf (ThreadStateTransitionBase.transition true sampleVMThread
        thread_in_vm thread_in_Java)) = false ∧
    (traceOf (ThreadStateTransitionBase.transition true sampleJavaThread
      thread_in_Java thread_in_vm)).any Event.isProcessCheck = false := by
  decide

/-- C2 (amended): the pending-synchronization-request check placement is —
(1) for every transition into Runtime from a safe predecessor (NativeCode or
Blocked), the check (`process_if_requested`) runs after the fence store of the
new state and before control returns (the result and full trace are exactly
the asserted ones); (2) for every transition into Managed, the check
(`process_if_requested_with_exit_check`) runs before the new state is stored —
not after — and before control returns; (3) a transition into Runtime from the
unsafe predecessor Managed performs no pending-request check at all. -/
theorem c2_sync_check_placement :
    (∀ (a : Bool) (t : JavaThread) (jf : JavaThreadState),
      ThreadStateTransitionBase.is_safe jf = true →
      ThreadStateTransitionBase.transition a t jf thread_in_vm =
        .ok ({ t with thread_state := thread_in_vm },
          [Event.checkPossibleSafepoint, Event.setThreadStateFence thread_in_vm,
           Event.processIfRequested]) ∧
      occursBefore Event.isStateStore Event.isProcessCheck
        (traceOf (ThreadStateTransitionBase.transition a t jf thread_in_vm)) =
          true) ∧
    (∀ (a : Bool) (t : JavaThread),
      t.thread_state = thread_in_vm →
      transOk (ThreadStateTransitionBase.transition a t thread_in_vm
        thread_in_Java) = true ∧
      occursBefore Event.isProcessCheck Event.isStateStore
        (traceOf (ThreadStateTransitionBase.transition a t thread_in_vm
          thread_in_Java)) = true ∧
      occursBefore Event.isStateStore Event.isProcessCheck
        (traceOf (ThreadStateTransitionBase.transition a t thread_in_vm
          thread_in_Java)) = false) ∧
    (∀ (a : Bool) (t : JavaThread),
      (traceOf (ThreadStateTransitionBase.transition a t thread_in_Java
        thread_in_vm)).any Event.isProcessCheck = false) := by
  refine ⟨?_, ?_, ?_⟩
  · intro a t jf
    obtain ⟨st, c, l, f, w, y, p, q⟩ := t
    revert a jf st c l f w y p q
    decide
  · intro a t
    obtain ⟨st, c, l, f, w, y, p, q⟩ := t
    revert a st c l f w y p q
    decide
  · intro a t
    obtain ⟨st, c, l, f, w, y, p, q⟩ := t
    revert a st c l f w y p q
    decide

/-- C2 witness: NativeCode→Runtime on a concrete thread — the exact result
and trace, with the fence store preceding the poll. -/
theorem c2_sync_check_placement_witness :
    ThreadStateTransitionBase.transition true sampleNativeThread
      thread_in_native thread_in_vm =
      .ok ({ sampleNativeThread with thread_state := thread_in_vm },
        [Event.checkPossibleSafepoint, Event.setThreadStateFence thread_in_vm,
         Event.processIfRequested]) :=
  (c2_sync_check_placement.1 true sampleNativeThread thread_in_native
    (by decide)).1

/-- C3 (confirmed): (1) every completed transition whose from-state is
Managed records `make_walkable` strictly before the store of the new state,
and leaves the walkable predicate true; (2) in `TransitionFromUnsafe::trans`
(the primitive for leaving an unsafe state) with a non-Managed from state, a
completed transition implies the stack was already walkable whenever the
thread had a last Java frame (the walkable assert passed).  The effect of
`make_walkable` itself is modelled from the spec (its body is platform code
outside this excerpt). -/
theorem c3_stack_walkable :
    (∀ (a : Bool) (t : JavaThread) (jto : JavaThreadState),
      t.thread_state = thread_in_Java →
      transOk (ThreadStateTransitionBase.transition a t thread_in_Java jto) =
        true →
      occursBefore (fun e => e == Event.makeWalkable) Event.isStateStore
        (traceOf (ThreadStateTransitionBase.transition a t thread_in_Java
          jto)) = true ∧
      (resultThread (ThreadStateTransitionBase.transition a t thread_in_Java
        jto)).map JavaThread.anchor_walkable = some true) ∧
    (∀ (t : JavaThread) (jf jto : JavaThreadState),
      jf ≠ thread_in_Java →
      transOk (TransitionFromUnsafe.trans t jf jto) = true →
      t.has_last_Java_frame = true → t.anchor_walkable = true) := by
  refine ⟨?_, ?_⟩
  · intro a t jto
    obtain ⟨st, c, l, f, w, y, p, q⟩ := t
    revert a jto st c l f w y p q
    decide
  · intro t jf jto
    obtain ⟨st, c, l, f, w, y, p, q⟩ := t
    revert jf jto st c l f w y p q
    decide

/-- C3 witness: Managed→Runtime on a concrete thread makes the stack walkable
before the state store. -/
theorem c3_stack_walkable_witness :
    occursBefore (fun e => e == Event.makeWalkable) Event.isStateStore
      (traceOf (ThreadStateTransitionBase.transition true sampleJavaThread
        thread_in_Java thread_in_vm)) = true :=
  (c3_stack_walkable.1 true sampleJavaThread thread_in_vm rfl (by decide)).1

/-- C4 counterexample: a thread in Runtime with a pending synchronization
request and a held in-flight mutex constructs a
ThreadBlockInVMWithDeadlockCheck; after the guard's entry step (the
constructor) completes, the caller-supplied lock slot is still non-null and
`release_for_safepoint` has been invoked zero times — the release happens only
in the exit step.  This refutes "after the guard's entry step completes the
caller-supplied lock slot is null and the release operation has been invoked
exactly once". -/
theorem c4_counterexample :
    (ThreadBlockInVMWithDeadlockCheck.construct pendingVMThread
      (some ())).2.1 = some () ∧
    countReleases (ThreadBlockInVMWithDeadlockCheck.construct pendingVMThread
      (some ())).2.2 = 0 := by
  decide

/-- C4 (amended): the deadlock-avoiding release happens in the guard's exit
step (the destructor), not the entry step — (1) for a thread holding the
in-flight mutex with a pending request, after the destructor's release phase
the slot is null, `release_for_safepoint` was invoked exactly once, and the
release precedes the blocking `process_if_requested` wait; (2) for a thread
with no pending request the mutex is never released by the destructor; (3)
the entry step (constructor) never touches the slot and never releases. -/
theorem c4_deadlock_release :
    (∀ (t : JavaThread),
      t.pending_safepoint = true →
      (ThreadBlockInVMWithDeadlockCheck.destruct t (some ())).2.1 = none ∧
      countReleases
        (ThreadBlockInVMWithDeadlockCheck.destruct t (some ())).2.2 = 1 ∧
      occursBefore (fun e => e == Event.releaseForSafepoint)
        Event.isProcessCheck
        (ThreadBlockInVMWithDeadlockCheck.destruct t (some ())).2.2 = true) ∧
    (∀ (t : JavaThread) (slot : Option Unit),
      t.pending_safepoint = false →
      (ThreadBlockInVMWithDeadlockCheck.destruct t slot).2.1 = slot ∧
      countReleases
        (ThreadBlockInVMWithDeadlockCheck.destruct t slot).2.2 = 0) ∧
    (∀ (t : JavaThread) (slot : Option Unit),
      (ThreadBlockInVMWithDeadlockCheck.construct t slot).2.1 = slot ∧
      countReleases
        (ThreadBlockInVMWithDeadlockCheck.construct t slot).2.2 = 0) := by
  refine ⟨?_, ?_, ?_⟩
  · intro t
    obtain ⟨st, c, l, f, w, y, p, q⟩ := t
    revert st c l f w y p q
    decide
  · intro t slot
    obtain ⟨st, c, l, f, w, y, p, q⟩ := t
    revert slot st c l f w y p q
    decide
  · intro t slot
    obtain ⟨st, c, l, f, w, y, p, q⟩ := t
    revert slot st c l f w y p q
    decide

/-- C4 witness: the destructor on a concrete pending thread nulls the slot. -/
theorem c4_deadlock_release_witness :
    (ThreadBlockInVMWithDeadlockCheck.destruct pendingVMThread
      (some ())).2.1 = none :=
  (c4_deadlock_release.1 pendingVMThread rfl).1

/-- C5 (confirmed): for every ScopedTransition variant of the file
(ThreadInVMfromJava, ThreadInVMfromJavaNoAsyncException, ThreadInVMfromNative,
ThreadBlockInVM, ThreadToNativeFromVM) and a thread whose state is the
variant's entry from-state and which satisfies the asserted caller invariants,
the constructor's into-transition followed by the destructor's reverse
transition completes normally and restores the thread-state field to exactly
its pre-entry value.  (C++ runs the destructor on every exit path, normal or
exceptional; the embedding composes the two transitions.) -/
theorem c5_scoped_round_trip :
    ∀ (v : ScopedVariant), v ∈ scopedVariants →
      ∀ (t : JavaThread),
        t.thread_state = v.jfrom →
        (t.is_Compiler_thread = true ∨ t.owns_locks = false) →
        (t.has_last_Java_frame = false ∨ t.anchor_walkable = true) →
        transOk (ThreadStateTransition.scopedRun v.jfrom v.jto v.ASYNC t) =
          true ∧
        finalStateOf (ThreadStateTransition.scopedRun v.jfrom v.jto v.ASYNC t) =
          some t.thread_state := by
  intro v hv
  simp only [scopedVariants, List.mem_cons, List.not_mem_nil, or_false] at hv
  rcases hv with rfl | rfl | rfl | rfl | rfl <;>
    (intro t
     obtain ⟨st, c, l, f, w, y, p, q⟩ := t
     revert st c l f w y p q
     decide)

/-- C5 witness: a ThreadInVMfromJava scope on a concrete Managed thread
returns to Managed. -/
theorem c5_scoped_round_trip_witness :
    finalStateOf (ThreadStateTransition.scopedRun thread_in_Java thread_in_vm
      true sampleJavaThread) = some thread_in_Java :=
  (c5_scoped_round_trip ThreadInVMfromJava (by decide) sampleJavaThread rfl
    (Or.inr rfl) (Or.inl rfl)).2

/-- C6 (confirmed): for every transition from a safe state (NativeCode or
Blocked) into Runtime, the new state is published with
`set_thread_state_fence` — the store acting as a full fence — and that fence
store is ordered in the trace strictly before the subsequent
`process_if_requested` load that checks for a pending synchronization
request; no plain (non-fence) store of the state occurs. -/
theorem c6_fence_store_before_poll (a : Bool) (t : JavaThread)
    (jf : JavaThreadState)
    (h : ThreadStateTransitionBase.is_safe jf = true) :
    ThreadStateTransitionBase.transition a t jf thread_in_vm =
      .ok ({ t with thread_state := thread_in_vm },
        [Event.checkPossibleSafepoint, Event.setThreadStateFence thread_in_vm,
         Event.processIfRequested]) ∧
    occursBefore Event.isFenceStore Event.isProcessCheck
      (traceOf (ThreadStateTransitionBase.transition a t jf thread_in_vm)) =
        true ∧
    (traceOf (ThreadStateTransitionBase.transition a t jf
      thread_in_vm)).any (fun e => e == Event.setThreadState thread_in_vm) =
        false := by
  revert h
  obtain ⟨st, c, l, f, w, y, p, q⟩ := t
  revert a jf st c l f w y p q
  decide

/-- C6 witness: Blocked→Runtime on a concrete thread. -/
theorem c6_fence_store_before_poll_witness :
    occursBefore Event.isFenceStore Event.isProcessCheck
      (traceOf (ThreadStateTransitionBase.transition true
        { sampleVMThread with thread_state := thread_blocked }
        thread_blocked thread_in_vm)) = true :=
  (c6_fence_store_before_poll true
    { sampleVMThread with thread_state := thread_blocked }
    thread_blocked (by decide)).2.1

/-- C7 (confirmed): the unknown-context guard ThreadInVMfromUnknown
(ThreadInStatefromUnknown with JTS_TO = `_thread_in_vm`, ASYNC = false) is
idempotent — for any current-thread situation satisfying the asserted caller
invariants, the construct/destruct pair completes normally and the net effect
on the thread's state is the identity; and when the thread is already in the
target state (or there is no Java thread at all), the whole scope performs no
transition: its trace holds at most the state read, no stores, no polls. -/
theorem c7_unknown_guard_identity (cur : CurrentThread)
    (h : cur.invariantOK = true) :
    guardOk (ThreadInStatefromUnknown.runGuard thread_in_vm false cur) =
      true ∧
    guardResultState (ThreadInStatefromUnknown.runGuard thread_in_vm false
      cur) = cur.stateOf ∧
    (cur.stateOf = some thread_in_vm ∨ cur.stateOf = none →
      (guardTrace (ThreadInStatefromUnknown.runGuard thread_in_vm false
        cur)).all (fun e => e == Event.readThreadState) = true) := by
  revert h
  cases cur with
  | noThread => decide
  | nonJavaThread => decide
  | javaThread jt =>
    obtain ⟨st, c, l, f, w, y, p, q⟩ := jt
    revert st c l f w y p q
    decide

/-- C7 witness: a NativeCode thread round-trips through the unknown-context
guard back to NativeCode. -/
theorem c7_unknown_guard_identity_witness :
    guardResultState (ThreadInStatefromUnknown.runGuard thread_in_vm false
      (CurrentThread.javaThread sampleNativeThread)) =
      some thread_in_native :=
  (c7_unknown_guard_identity (CurrentThread.javaThread sampleNativeThread)
    (by decide)).2.1

/-- C8 counterexample: a thread whose predecessor state is Managed with the
yellow/reserved guard zone disabled transitions Managed→Runtime; the
transition completes normally, its trace holds no guard-page re-enable, and
the zone is still disabled afterwards.  This refutes "when the predecessor
state was Managed, any temporarily-disabled stack guard-page protection is
re-enabled before the transition completes": in the code the re-enable sits in
`TransitionFromVMToJava::trans`, whose predecessor is Runtime, not Managed. -/
theorem c8_counterexample :
    transOk (ThreadStateTransitionBase.transition true yellowJavaThread
      thread_in_Java thread_in_vm) = true ∧
    (traceOf (ThreadStateTransitionBase.transition true yellowJavaThread
      thread_in_Java thread_in_vm)).any
        (fun e => e == Event.enableYellowZone) = false ∧
    (resultThread (ThreadStateTransitionBase.transition true yellowJavaThread
      thread_in_Java thread_in_vm)).map JavaThread.yellow_zone_disabled =
      some true := by
  decide

/-- C8 (amended): the yellow/reserved guard-page zone is re-enabled exactly
in the guarded entry transition INTO Managed (whose predecessor is Runtime) —
(1) a transition into Managed on a thread in Runtime with the zone disabled
completes normally, re-enables the zone before the new state is stored, and
leaves it enabled; (2) every transition whose destination is not Managed
never touches the zone: no re-enable event appears in its trace, and on
normal completion the zone flag is unchanged. -/
theorem c8_guard_page_reenable :
    (∀ (a : Bool) (t : JavaThread),
      t.thread_state = thread_in_vm →
      t.yellow_zone_disabled = true →
      transOk (ThreadStateTransitionBase.transition a t thread_in_vm
        thread_in_Java) = true ∧
      occursBefore (fun e => e == Event.enableYellowZone) Event.isStateStore
        (traceOf (ThreadStateTransitionBase.transition a t thread_in_vm
          thread_in_Java)) = true ∧
      (resultThread (ThreadStateTransitionBase.transition a t thread_in_vm
        thread_in_Java)).map JavaThread.yellow_zone_disabled = some false) ∧
    (∀ (a : Bool) (t : JavaThread) (jf jto : JavaThreadState),
      jto ≠ thread_in_Java →
      (traceOf (ThreadStateTransitionBase.transition a t jf jto)).any
        (fun e => e == Event.enableYellowZone) = false ∧
      (transOk (ThreadStateTransitionBase.transition a t jf jto) = true →
        (resultThread (ThreadStateTransitionBase.transition a t jf jto)).map
          JavaThread.yellow_zone_disabled = some t.yellow_zone_disabled)) := by
  refine ⟨?_, ?_⟩
  · intro a t
    obtain ⟨st, c, l, f, w, y, p, q⟩ := t
    revert a st c l f w y p q
    decide
  · intro a t jf jto
    obtain ⟨st, c, l, f, w, y, p, q⟩ := t
    revert a jf jto st c l f w y p q
    decide

/-- C8 witness: Runtime→Managed on a concrete thread with the zone disabled
re-enables it. -/
theorem c8_guard_page_reenable_witness :
    (resultThread (ThreadStateTransitionBase.transition true yellowVMThread
      thread_in_vm thread_in_Java)).map JavaThread.yellow_zone_disabled =
      some false :=
  (c8_guard_page_reenable.1 true yellowVMThread rfl rfl).2.2

/-- C9 (confirmed): the lock-release obligation on entering NativeCode —
(1) every transition out of an unsafe state into `_thread_in_native` that
completes normally was performed by a compiler thread or by a thread owning
no locks; (2) a non-compiler thread that still owns a lock faults fatally on
the assert when transitioning from any unsafe state to `_thread_in_native`;
(3) compiler threads are exempt: a compiler thread owning locks transitions
Runtime→NativeCode normally (given the walkable invariant). -/
theorem c9_native_locks :
    (∀ (a : Bool) (t : JavaThread) (jf : JavaThreadState),
      ThreadStateTransitionBase.is_unsafe_state jf = true →
      transOk (ThreadStateTransitionBase.transition a t jf
        thread_in_native) = true →
      (t.is_Compiler_thread = true ∨ t.owns_locks = false)) ∧
    (∀ (a : Bool) (t : JavaThread) (jf : JavaThreadState),
      ThreadStateTransitionBase.is_unsafe_state jf = true →
      t.is_Compiler_thread = false →
      t.owns_locks = true →
      ThreadStateTransitionBase.transition a t jf thread_in_native =
        .error .assertFailed) ∧
    (∀ (a : Bool) (t : JavaThread),
      t.is_Compiler_thread = true →
      t.thread_state = thread_in_vm →
      (t.has_last_Java_frame = false ∨ t.anchor_walkable = true) →
      transOk (ThreadStateTransitionBase.transition a t thread_in_vm
        thread_in_native) = true) := by
  refine ⟨?_, ?_, ?_⟩
  · intro a t jf
    obtain ⟨st, c, l, f, w, y, p, q⟩ := t
    revert a jf st c l f w y p q
    decide
  · intro a t jf
    obtain ⟨st, c, l, f, w, y, p, q⟩ := t
    revert a jf st c l f w y p q
    decide
  · intro a t
    obtain ⟨st, c, l, f, w, y, p, q⟩ := t
    revert a st c l f w y p q
    decide

/-- C9 witness: a compiler thread owning locks enters NativeCode normally. -/
theorem c9_native_locks_witness :
    transOk (ThreadStateTransitionBase.transition true compilerVMThread
      thread_in_vm thread_in_native) = true :=
  c9_native_locks.2.2 true compilerVMThread rfl rfl (Or.inl rfl)

/-- C10 (confirmed): constructing the unknown-context guard with no current
thread, or with a current thread that is not a Java thread, is a complete
no-op — the construct step returns with `_thread` unset, an unchanged
current-thread situation, and an empty event trace (no thread-state read or
write), and the destruct step then performs no transition and records no
events either. -/
theorem c10_unknown_guard_noop :
    ThreadInStatefromUnknown.construct thread_in_vm false
      CurrentThread.noThread =
      .ok (CurrentThread.noThread, none, []) ∧
    ThreadInStatefromUnknown.construct thread_in_vm false
      CurrentThread.nonJavaThread =
      .ok (CurrentThread.nonJavaThread, none, []) ∧
    ThreadInStatefromUnknown.destruct thread_in_vm false
      CurrentThread.noThread none = .ok (CurrentThread.noThread, []) ∧
    ThreadInStatefromUnknown.destruct thread_in_vm false
      CurrentThread.nonJavaThread none =
      .ok (CurrentThread.nonJavaThread, []) := by
  decide

end InterfaceSupport
